import Mathlib

/-!
Shallow embedding of the tetracubed-fox bot core: the session-token-caching
API client (`src/api-client.js`) and the status reconciler paths of
`src/index.js` (`handlePingServer`, `updateBotStatus`), together with the
runtime-config persistence. Machine time (`Date.now()`) is modelled as a
natural number of milliseconds passed in explicitly; remote I/O is modelled
by passing the upstream outcome as an argument.
-/

namespace Tetracubed

/-- JS truthiness of an optional string: `null`/`undefined` and `""` are falsy. -/
def truthy : Option String → Bool
  | none => false
  | some s => !(s == "")

/-- JS `a || b` where `a` is an optional string and `b` a string default:
yields `b` exactly when `a` is absent or empty. -/
def jsOr (a : Option String) (b : String) : String :=
  match a with
  | some s => if s == "" then b else s
  | none => b

/-- Session state owned by a `TetracubedAPIClient` (api-client.js:4-10):
the cached bearer token and its stored expiry (a millisecond timestamp),
both `null` in a fresh client. -/
structure Session where
  accessToken : Option String
  tokenExpiry : Option Nat
deriving DecidableEq, Repr

/-- The state built by the constructor: no token, no expiry. -/
def Session.init : Session := ⟨none, none⟩

/-- A failed token request (non-2xx or network error); the upstream detail,
when present, is only logged. -/
structure AuthFailure where
  detail : Option String
deriving DecidableEq, Repr

/-- `authenticate()` (api-client.js:12-37): on a successful token POST, store
the returned `access_token` and set expiry to `Date.now() + 25 * 60 * 1000`
(token lives 30 minutes upstream; refreshed 5 minutes early). On failure,
log the detail and throw the fixed message, leaving the fields untouched.
Returns the new state and the thrown/returned outcome. -/
def authenticate (s : Session) (now : Nat) (resp : Except AuthFailure String) :
    Session × Except String Bool :=
  match resp with
  | .ok token =>
      ({ accessToken := some token, tokenExpiry := some (now + 25 * 60 * 1000) }, .ok true)
  | .error _ => (s, .error "Failed to authenticate with Tetracubed API")

/-- The guard of `ensureAuthenticated()` (api-client.js:40):
`!this.accessToken || Date.now() >= this.tokenExpiry`. `!token` is JS
truthiness (an empty-string token counts as absent); a `null` expiry
coerces to `0` in the comparison. -/
def needsAuth (s : Session) (now : Nat) : Bool :=
  !truthy s.accessToken || decide (now ≥ s.tokenExpiry.getD 0)

/-- `ensureAuthenticated()` (api-client.js:39-43): when the guard fires, call
`authenticate` and await it (propagating a thrown failure); otherwise do
nothing. The last component counts the `authenticate` calls triggered. -/
def ensureAuthenticated (s : Session) (now : Nat) (resp : Except AuthFailure String) :
    Session × Except String Unit × Nat :=
  if needsAuth s now then
    match authenticate s now resp with
    | (s2, .ok _) => (s2, .ok (), 1)
    | (s2, .error e) => (s2, .error e, 1)
  else (s, .ok (), 0)

/-- Upstream outcome of an authenticated remote call: a 2xx body, or a
failure whose `error.response?.data?.detail` may be present. -/
inductive RemoteOutcome (α : Type) where
  | ok (body : α)
  | fail (detail : Option String)

/-- Common shape of the three remote operations (api-client.js:45-107):
ensure authentication (aborting if that throws), then return the response
body, or on failure throw `error.response?.data?.detail || fallback`. -/
def remoteOp {α : Type} (fallback : String) (s : Session) (now : Nat)
    (authResp : Except AuthFailure String) (resp : RemoteOutcome α) :
    Session × Except String α × Nat :=
  match ensureAuthenticated s now authResp with
  | (s1, .error e, n) => (s1, .error e, n)
  | (s1, .ok _, n) =>
    match resp with
    | .ok body => (s1, .ok body, n)
    | .fail detail => (s1, .error (jsOr detail fallback), n)

/-- `startServer()` (api-client.js:45-65): POST to the start endpoint,
fallback error message `Failed to start server`. -/
def startServer {α : Type} (s : Session) (now : Nat)
    (authResp : Except AuthFailure String) (resp : RemoteOutcome α) :
    Session × Except String α × Nat :=
  remoteOp "Failed to start server" s now authResp resp

/-- `stopServer()` (api-client.js:67-87): POST to the stop endpoint,
fallback error message `Failed to stop server`. -/
def stopServer {α : Type} (s : Session) (now : Nat)
    (authResp : Except AuthFailure String) (resp : RemoteOutcome α) :
    Session × Except String α × Nat :=
  remoteOp "Failed to stop server" s now authResp resp

/-- `getResources()` (api-client.js:89-107): GET the resources endpoint,
fallback error message `Failed to get resources`. -/
def getResources {α : Type} (s : Session) (now : Nat)
    (authResp : Except AuthFailure String) (resp : RemoteOutcome α) :
    Session × Except String α × Nat :=
  remoteOp "Failed to get resources" s now authResp resp

/-- One remote operation of a trace: its issue time, and the answer the token
endpoint would give were authentication attempted during it. -/
structure TimedOp where
  now : Nat
  authResp : Except AuthFailure String

/-- Number of `authenticate` calls the `ensureAuthenticated` guard triggers
for a single remote operation issued in state `s` at time `now`. -/
def opAuthCalls (s : Session) (now : Nat) : Nat :=
  if needsAuth s now then 1 else 0

/-- Session state after one remote operation's `ensureAuthenticated` guard. -/
def opState (s : Session) (op : TimedOp) : Session :=
  (ensureAuthenticated s op.now op.authResp).1

/-- Per-operation `authenticate`-call counts along a sequence of remote
operations run from state `s`. -/
def traceAuthCalls (s : Session) : List TimedOp → List Nat
  | [] => []
  | op :: ops => opAuthCalls s op.now :: traceAuthCalls (opState s op) ops

/-- Session states reachable from the constructor state through the client's
operations: a direct `authenticate` call (succeeding or failing), or the
`ensureAuthenticated` guard run by any remote operation. -/
inductive Reachable : Session → Prop where
  | init : Reachable Session.init
  | auth (s : Session) (now : Nat) (resp : Except AuthFailure String) :
      Reachable s → Reachable (authenticate s now resp).1
  | op (s : Session) (now : Nat) (resp : Except AuthFailure String) :
      Reachable s → Reachable (ensureAuthenticated s now resp).1

/-- A JS `Error` as inspected by the ping handler's catch block: optional
`message` and optional `code`. -/
structure JsError where
  message : Option String
  code : Option String
deriving DecidableEq, Repr

/-- JS `str.includes(sub)`: substring containment. -/
def strIncludes (s sub : String) : Bool := (s.splitOn sub).length > 1

/-- `error.message?.includes('timeout') || error.code === 'ETIMEDOUT'`
(index.js:538). -/
def isTimeout (e : JsError) : Bool :=
  (match e.message with
   | some m => strIncludes m "timeout"
   | none => false) || e.code == some "ETIMEDOUT"

/-- `error.code === 'ECONNREFUSED'` (index.js:539). -/
def isRefused (e : JsError) : Bool := e.code == some "ECONNREFUSED"

/-- Player block of a game-protocol answer: online and maximum counts, and
the optional sample of online player names. -/
structure Players where
  online : Nat
  max : Nat
  sample : Option (List String)
deriving DecidableEq, Repr

/-- Version block of a game-protocol answer. -/
structure GameVersion where
  name : Option String
  protocol : Int
deriving DecidableEq, Repr

/-- A successful game-protocol query answer, with the fields the handlers
read (`motd?.clean` collapsed into one optional field). -/
structure GameServerStatus where
  motdClean : Option String
  players : Players
  version : GameVersion
deriving DecidableEq, Repr

/-- The `outputs` mapping of a provisioned `ResourceSnapshot`; the reconciler
reads only `public_ip`, remaining keys are carried opaquely. -/
structure Outputs where
  public_ip : Option String
  extra : List (String × String)
deriving DecidableEq, Repr

/-- Result of `getResources()`: either `{message}` (no resources) or
`{stack_name, outputs}` (resources present), duck-typed via optional
fields as the handlers inspect it. -/
structure ResourceSnapshot where
  message : Option String
  stack_name : Option String
  outputs : Option Outputs
deriving DecidableEq, Repr

/-- One invocation of the game-protocol `status` query: host, port and
timeout in milliseconds. -/
structure QueryCall where
  host : String
  port : Nat
  timeout : Nat
deriving DecidableEq, Repr

/-- The game-protocol query as an oracle: host, port, timeout to outcome. -/
def QueryFn : Type := String → Nat → Nat → Except JsError GameServerStatus

/-- Derived presentation state of the on-demand `/ping-server` path, with the
embed fields the code renders: the Offline embed, the Online embed, and the
Cannot-Reach embed (the spec's Starting state). -/
inductive PingResult where
  | offline (statusField tip : String)
  | online (motd address playersField versionField protocolField : String)
      (playerNames : Option String)
  | starting (errorMessage statusField tip : String)
deriving DecidableEq, Repr

/-- `true` exactly on the Starting (Cannot-Reach) presentation state. -/
def PingResult.isStarting : PingResult → Bool
  | .starting _ _ _ => true
  | _ => false

/-- The `Status` field of the Starting embed, when in that state. -/
def PingResult.statusHint : PingResult → Option String
  | .starting _ st _ => some st
  | _ => none

/-- The tip shown by the Cannot-Reach embed (index.js:558). -/
def pingTip : String :=
  "Infrastructure may be up but Minecraft server is still loading. Try again in 1-2 minutes."

/-- The catch block of `handlePingServer` (index.js:534-563): classify the
error as timeout / connection-refused / other and build the Cannot-Reach
embed with the matching message and status hint. -/
def pingFailureEmbed (e : JsError) : PingResult :=
  if isTimeout e then
    .starting "Connection timed out. The server may be starting up or experiencing issues."
      "Starting up or not responding" pingTip
  else if isRefused e then
    .starting "Connection refused. The Minecraft server process may not be running yet."
      "Server process not started" pingTip
  else
    .starting "Unable to connect to the Minecraft server."
      "Server may be starting up or offline" pingTip

/-- `handlePingServer` (index.js:478-564) as a function of the configured
stable hostname (`SERVER_HOSTNAME`), the `getResources()` outcome, and the
game-protocol query oracle. If `outputs?.public_ip` is falsy, return the
Offline embed without querying; otherwise query
`SERVER_HOSTNAME || public_ip` on port 25565 with a 5000 ms timeout and
render Online or the Cannot-Reach embed. The catch also covers a thrown
`getResources` error. The second component lists the protocol-query
invocations performed. -/
def handlePingServer (hostname : Option String)
    (res : Except JsError ResourceSnapshot) (q : QueryFn) :
    PingResult × List QueryCall :=
  match res with
  | .error e => (pingFailureEmbed e, [])
  | .ok r =>
    if !truthy (r.outputs.bind Outputs.public_ip) then
      (.offline "Infrastructure not provisioned" "Use `/start` to launch the server", [])
    else
      let serverAddress := jsOr hostname ((r.outputs.bind Outputs.public_ip).getD "")
      match q serverAddress 25565 5000 with
      | .ok st =>
          let playerNames :=
            if st.players.online > 0 then
              st.players.sample.map (fun names => String.intercalate ", " names)
            else none
          (.online (jsOr st.motdClean "Minecraft Server") serverAddress
            (toString st.players.online ++ "/" ++ toString st.players.max)
            (jsOr st.version.name "Unknown") (toString st.version.protocol)
            playerNames, [⟨serverAddress, 25565, 5000⟩])
      | .error e => (pingFailureEmbed e, [⟨serverAddress, 25565, 5000⟩])

/-- A presence set through `client.user.setPresence`: activity name,
activity type, and status. -/
structure Presence where
  activity : String
  activityType : Nat
  status : String
deriving DecidableEq, Repr

/-- `updateBotStatus` (index.js:567-607): derive the presence from the
`getResources()` outcome and a 3000 ms-timeout protocol query on port
25565; on an API error keep the current presence (`none`). The second
component lists the protocol-query invocations performed. -/
def updateBotStatus (hostname : Option String)
    (res : Except String ResourceSnapshot) (q : QueryFn) :
    Option Presence × List QueryCall :=
  match res with
  | .error _ => (none, [])
  | .ok r =>
    if !truthy (r.outputs.bind Outputs.public_ip) then
      (some ⟨"🔴 Server Offline", 3, "idle"⟩, [])
    else
      let serverAddress := jsOr hostname ((r.outputs.bind Outputs.public_ip).getD "")
      match q serverAddress 25565 3000 with
      | .ok st =>
          (some ⟨"🟢 " ++ toString st.players.online ++ "/" ++
              toString st.players.max ++ " players", 3, "online"⟩,
            [⟨serverAddress, 25565, 3000⟩])
      | .error _ =>
          (some ⟨"🟡 Server Starting...", 3, "dnd"⟩, [⟨serverAddress, 25565, 3000⟩])

/-- Runtime config (index.js:34-36): the notification channel id, `null`
when the environment provides none. -/
structure Config where
  notificationChannelId : Option String
deriving DecidableEq, Repr

/-- The JSON object `saveConfig` (index.js:48-54) writes: the full in-memory
config, `null` fields included. -/
structure SavedConfig where
  notificationChannelId : Option String
deriving DecidableEq, Repr

/-- Startup config load (index.js:34-45): environment default, overridden by
the saved file's fields when a file exists (object-spread merge). -/
def loadConfig (envChannel : Option String) (file : Option SavedConfig) : Config :=
  match file with
  | none => ⟨envChannel⟩
  | some f => ⟨f.notificationChannelId⟩

/-- Core of `handleSetNotificationChannel` (index.js:450-454): set the chosen
channel's id on the in-memory config and immediately write the whole config
to the store via `saveConfig`. -/
def setNotificationChannel (cfg : Config) (channelId : String) :
    Config × SavedConfig :=
  let cfg2 : Config := { cfg with notificationChannelId := some channelId }
  (cfg2, ⟨cfg2.notificationChannelId⟩)

/-- A `getResources` result whose outputs lack a `public_ip` entry: no
`outputs` object at all, or one without the key. -/
def lacksPublicIp (r : ResourceSnapshot) : Bool :=
  match r.outputs with
  | none => true
  | some o => o.public_ip.isNone

/-- C10: if `authenticate` fails (the token request throws), the session is
left exactly as it was: `accessToken` and `tokenExpiry` are unchanged, so a
previously held (possibly expired) token is neither cleared nor replaced. -/
theorem authenticate_failure_preserves_state (s : Session) (now : Nat) (f : AuthFailure) :
    (authenticate s now (.error f)).1 = s ∧
    (authenticate s now (.error f)).1.accessToken = s.accessToken ∧
    (authenticate s now (.error f)).1.tokenExpiry = s.tokenExpiry :=
  ⟨rfl, rfl, rfl⟩

/-- C9: for every channel id, the configuration command writes the new value
to the store such that a fresh config load (as at startup, for any
environment default and any prior in-memory config) observes that value in
place of the environment default. -/
theorem notification_channel_persists (envChannel : Option String) (cfg : Config)
    (channelId : String) :
    (loadConfig envChannel
        (some (setNotificationChannel cfg channelId).2)).notificationChannelId
      = some channelId := rfl

/-- C6: every successful `authenticate` at time `t0` stores the token and
sets `tokenExpiry` to exactly `t0 + 1500000` ms (25 minutes), never the
1800-second nominal lifetime, and an operation issued at `t0 + 1500001` ms
or any later time triggers re-authentication. -/
theorem authenticate_expiry_margin (s : Session) (tok : String) (t0 : Nat) :
    (authenticate s t0 (.ok tok)).1.accessToken = some tok ∧
    (authenticate s t0 (.ok tok)).1.tokenExpiry = some (t0 + 1500000) ∧
    (authenticate s t0 (.ok tok)).1.tokenExpiry ≠ some (t0 + 1800000) ∧
    ∀ now : Nat, t0 + 1500001 ≤ now →
      opAuthCalls (authenticate s t0 (.ok tok)).1 now = 1 := by
  refine ⟨rfl, rfl, ?_, ?_⟩
  · simp [authenticate]
  · intro now hnow
    have hge : t0 + 1500000 ≤ now := by omega
    simp [authenticate, opAuthCalls, needsAuth, hge]

/-- C6 witness: authentication at `t0 = 0` and a re-authenticating
operation at the concrete later time `2000000` ms. -/
theorem authenticate_expiry_margin_witness :
    (authenticate Session.init 0 (.ok "tok")).1.accessToken = some "tok" ∧
    (authenticate Session.init 0 (.ok "tok")).1.tokenExpiry = some (0 + 1500000) ∧
    (authenticate Session.init 0 (.ok "tok")).1.tokenExpiry ≠ some (0 + 1800000) ∧
    opAuthCalls (authenticate Session.init 0 (.ok "tok")).1 2000000 = 1 :=
  ⟨(authenticate_expiry_margin Session.init "tok" 0).1,
   (authenticate_expiry_margin Session.init "tok" 0).2.1,
   (authenticate_expiry_margin Session.init "tok" 0).2.2.1,
   (authenticate_expiry_margin Session.init "tok" 0).2.2.2 2000000 (by decide)⟩

/-- C2: in every reachable session state, `accessToken` is non-null exactly
when `tokenExpiry` is non-null: the fields are set together and cleared
together, never partially. -/
theorem session_fields_set_together (s : Session) (h : Reachable s) :
    s.accessToken.isSome = s.tokenExpiry.isSome := by
  induction h with
  | init => rfl
  | auth s now resp _ ih =>
      cases resp with
      | ok tok => rfl
      | error f => exact ih
  | op s now resp _ ih =>
      rw [ensureAuthenticated]
      split
      · cases resp with
        | ok tok => rfl
        | error f => exact ih
      · exact ih

/-- C2 witness: the invariant holds at the constructor state. -/
theorem session_fields_set_together_witness :
    Session.init.accessToken.isSome = Session.init.tokenExpiry.isSome :=
  session_fields_set_together Session.init Reachable.init

/-- C1: on any sequence of remote operations run from the constructor state
(where `accessToken` is null), `ensureAuthenticated` triggers exactly one
`authenticate` call for the first operation; and in any state holding a
token, an operation issued strictly before the stored expiry triggers
zero `authenticate` calls. -/
theorem ensureAuthenticated_call_discipline
    (first : TimedOp) (rest : List TimedOp)
    (s : Session) (t : String) (e now : Nat)
    (hheld : s.accessToken = some t) (ht : t ≠ "")
    (hexp : s.tokenExpiry = some e) (hlt : now < e) :
    (traceAuthCalls Session.init (first :: rest)).head? = some 1 ∧
    opAuthCalls s now = 0 := by
  constructor
  · simp [traceAuthCalls, opAuthCalls, needsAuth, Session.init, truthy]
  · simp [opAuthCalls, needsAuth, truthy, hheld, hexp, ht, Nat.not_le.mpr hlt]

/-- C1 witness: a concrete one-operation trace from the fresh client, and a
concrete held-token state queried before its expiry. -/
theorem ensureAuthenticated_call_discipline_witness :
    (traceAuthCalls Session.init [⟨0, .ok "tok"⟩]).head? = some 1 ∧
    opAuthCalls ⟨some "tok", some 10⟩ 5 = 0 :=
  ensureAuthenticated_call_discipline ⟨0, .ok "tok"⟩ [] ⟨some "tok", some 10⟩
    "tok" 10 5 rfl (by decide) rfl (by decide)

/-- C7: a failed `startServer`, `stopServer` or `getResources` throws the
upstream detail when the response carries a (truthy) one and the operation's
generic fallback otherwise, while a failed `authenticate` always throws the
same fixed generic message whatever the upstream detail. -/
theorem operation_error_messages (s : Session) (now : Nat) (tok : String)
    (d : String) (hd : d ≠ "") (f : AuthFailure) :
    (startServer (α := Unit) s now (.ok tok) (.fail (some d))).2.1 = .error d ∧
    (startServer (α := Unit) s now (.ok tok) (.fail none)).2.1
      = .error "Failed to start server" ∧
    (stopServer (α := Unit) s now (.ok tok) (.fail (some d))).2.1 = .error d ∧
    (stopServer (α := Unit) s now (.ok tok) (.fail none)).2.1
      = .error "Failed to stop server" ∧
    (getResources (α := Unit) s now (.ok tok) (.fail (some d))).2.1 = .error d ∧
    (getResources (α := Unit) s now (.ok tok) (.fail none)).2.1
      = .error "Failed to get resources" ∧
    (authenticate s now (.error f)).2
      = .error "Failed to authenticate with Tetracubed API" := by
  have hens : ensureAuthenticated s now (.ok tok)
      = if needsAuth s now then (⟨some tok, some (now + 25 * 60 * 1000)⟩, .ok (), 1)
        else (s, .ok (), 0) := by
    unfold ensureAuthenticated authenticate
    split <;> rfl
  refine ⟨?_, ?_, ?_, ?_, ?_, ?_, rfl⟩ <;>
    · simp only [startServer, stopServer, getResources]
      unfold remoteOp
      rw [hens]
      split <;> rename_i heq <;> split at heq <;>
        simp_all [jsOr, hd]

/-- C7 witness: the error messages at a concrete state and detail. -/
theorem operation_error_messages_witness :
    (startServer (α := Unit) Session.init 0 (.ok "t") (.fail (some "boom"))).2.1
      = .error "boom" ∧
    (startServer (α := Unit) Session.init 0 (.ok "t") (.fail none)).2.1
      = .error "Failed to start server" ∧
    (stopServer (α := Unit) Session.init 0 (.ok "t") (.fail (some "boom"))).2.1
      = .error "boom" ∧
    (stopServer (α := Unit) Session.init 0 (.ok "t") (.fail none)).2.1
      = .error "Failed to stop server" ∧
    (getResources (α := Unit) Session.init 0 (.ok "t") (.fail (some "boom"))).2.1
      = .error "boom" ∧
    (getResources (α := Unit) Session.init 0 (.ok "t") (.fail none)).2.1
      = .error "Failed to get resources" ∧
    (authenticate Session.init 0 (.error ⟨some "upstream detail"⟩)).2
      = .error "Failed to authenticate with Tetracubed API" :=
  operation_error_messages Session.init 0 "t" "boom" (by decide) ⟨some "upstream detail"⟩

/-- C3: when the `getResources` result lacks a `public_ip` output, both
reconciler paths derive the Offline presentation and perform zero
game-protocol query invocations. -/
theorem no_ip_offline_no_query (hostname : Option String) (r : ResourceSnapshot)
    (q q2 : QueryFn) (h : lacksPublicIp r = true) :
    (handlePingServer hostname (.ok r) q).1
      = .offline "Infrastructure not provisioned" "Use `/start` to launch the server" ∧
    (handlePingServer hostname (.ok r) q).2 = [] ∧
    (updateBotStatus hostname (.ok r) q2).1 = some ⟨"🔴 Server Offline", 3, "idle"⟩ ∧
    (updateBotStatus hostname (.ok r) q2).2 = [] := by
  have hb : r.outputs.bind Outputs.public_ip = none := by
    unfold lacksPublicIp at h
    cases ho : r.outputs with
    | none => simp
    | some o =>
        rw [ho] at h
        simpa using h
  refine ⟨?_, ?_, ?_, ?_⟩ <;> simp [handlePingServer, updateBotStatus, hb, truthy]

/-- C3 witness: a snapshot with outputs but no `public_ip` key. -/
theorem no_ip_offline_no_query_witness :
    (handlePingServer none (.ok ⟨none, some "stack", some ⟨none, []⟩⟩)
        (fun _ _ _ => .error ⟨none, none⟩)).1
      = .offline "Infrastructure not provisioned" "Use `/start` to launch the server" ∧
    (handlePingServer none (.ok ⟨none, some "stack", some ⟨none, []⟩⟩)
        (fun _ _ _ => .error ⟨none, none⟩)).2 = [] ∧
    (updateBotStatus none (.ok ⟨none, some "stack", some ⟨none, []⟩⟩)
        (fun _ _ _ => .error ⟨none, none⟩)).1 = some ⟨"🔴 Server Offline", 3, "idle"⟩ ∧
    (updateBotStatus none (.ok ⟨none, some "stack", some ⟨none, []⟩⟩)
        (fun _ _ _ => .error ⟨none, none⟩)).2 = [] :=
  no_ip_offline_no_query none ⟨none, some "stack", some ⟨none, []⟩⟩
    (fun _ _ _ => .error ⟨none, none⟩) (fun _ _ _ => .error ⟨none, none⟩) rfl

/-- C4: when `public_ip` is present and the game-protocol query fails, both
reconciler paths derive the Starting presentation instead of an error; on
the on-demand path a connection-refused failure (that is not classified as
a timeout) yields the hint "Server process not started" and a timeout
failure yields the distinct hint "Starting up or not responding". -/
theorem query_failure_starting (hostname : Option String) (r : ResourceSnapshot)
    (ip : String) (hip : r.outputs.bind Outputs.public_ip = some ip) (hip2 : ip ≠ "")
    (e1 e2 e3 : JsError) (q1 q2 q3 : QueryFn)
    (he1 : isRefused e1 = true) (he1t : isTimeout e1 = false)
    (he2 : isTimeout e2 = true)
    (hq1 : ∀ a p t, q1 a p t = .error e1)
    (hq2 : ∀ a p t, q2 a p t = .error e2)
    (hq3 : ∀ a p t, q3 a p t = .error e3) :
    (handlePingServer hostname (.ok r) q3).1.isStarting = true ∧
    (updateBotStatus hostname (.ok r) q3).1
      = some ⟨"🟡 Server Starting...", 3, "dnd"⟩ ∧
    (handlePingServer hostname (.ok r) q1).1.statusHint
      = some "Server process not started" ∧
    (handlePingServer hostname (.ok r) q2).1.statusHint
      = some "Starting up or not responding" := by
  have hst : ∀ e : JsError, (pingFailureEmbed e).isStarting = true := by
    intro e
    unfold pingFailureEmbed
    split
    · rfl
    · split <;> rfl
  refine ⟨?_, ?_, ?_, ?_⟩
  · simp [handlePingServer, hip, truthy, hip2, hq3, hst]
  · simp [updateBotStatus, hip, truthy, hip2, hq3]
  · simp [handlePingServer, hip, truthy, hip2, hq1, pingFailureEmbed, he1, he1t,
      PingResult.statusHint]
  · simp [handlePingServer, hip, truthy, hip2, hq2, pingFailureEmbed, he2,
      PingResult.statusHint]

/-- C4 witness: a provisioned snapshot with a constantly failing query, for
a connection-refused error, a timeout error, and a generic network error. -/
theorem query_failure_starting_witness :
    (handlePingServer none (.ok ⟨none, none, some ⟨some "1.2.3.4", []⟩⟩)
        (fun _ _ _ => .error ⟨some "socket hang up", none⟩)).1.isStarting = true ∧
    (updateBotStatus none (.ok ⟨none, none, some ⟨some "1.2.3.4", []⟩⟩)
        (fun _ _ _ => .error ⟨some "socket hang up", none⟩)).1
      = some ⟨"🟡 Server Starting...", 3, "dnd"⟩ ∧
    (handlePingServer none (.ok ⟨none, none, some ⟨some "1.2.3.4", []⟩⟩)
        (fun _ _ _ => .error ⟨none, some "ECONNREFUSED"⟩)).1.statusHint
      = some "Server process not started" ∧
    (handlePingServer none (.ok ⟨none, none, some ⟨some "1.2.3.4", []⟩⟩)
        (fun _ _ _ => .error ⟨none, some "ETIMEDOUT"⟩)).1.statusHint
      = some "Starting up or not responding" :=
  query_failure_starting none ⟨none, none, some ⟨some "1.2.3.4", []⟩⟩ "1.2.3.4"
    rfl (by decide) ⟨none, some "ECONNREFUSED"⟩ ⟨none, some "ETIMEDOUT"⟩
    ⟨some "socket hang up", none⟩
    (fun _ _ _ => .error ⟨none, some "ECONNREFUSED"⟩)
    (fun _ _ _ => .error ⟨none, some "ETIMEDOUT"⟩)
    (fun _ _ _ => .error ⟨some "socket hang up", none⟩)
    (by decide) (by decide) (by decide)
    (fun _ _ _ => rfl) (fun _ _ _ => rfl) (fun _ _ _ => rfl)

/-- C5: when a non-empty stable hostname is configured and `getResources`
returns a (non-empty) `public_ip`, both paths issue their single protocol
query at the configured hostname, whatever the value of `public_ip`. -/
theorem hostname_overrides_ip (h ip : String) (hh : h ≠ "") (hip2 : ip ≠ "")
    (r : ResourceSnapshot) (hip : r.outputs.bind Outputs.public_ip = some ip)
    (q q2 : QueryFn) :
    (handlePingServer (some h) (.ok r) q).2 = [⟨h, 25565, 5000⟩] ∧
    (updateBotStatus (some h) (.ok r) q2).2 = [⟨h, 25565, 3000⟩] := by
  constructor <;>
    · simp [handlePingServer, updateBotStatus, hip, truthy, hip2, jsOr, hh]
      split <;> simp

/-- C5 witness: hostname `mc.example.org` wins over IP `1.2.3.4`. -/
theorem hostname_overrides_ip_witness :
    (handlePingServer (some "mc.example.org")
        (.ok ⟨none, none, some ⟨some "1.2.3.4", []⟩⟩)
        (fun _ _ _ => .error ⟨none, none⟩)).2 = [⟨"mc.example.org", 25565, 5000⟩] ∧
    (updateBotStatus (some "mc.example.org")
        (.ok ⟨none, none, some ⟨some "1.2.3.4", []⟩⟩)
        (fun _ _ _ => .error ⟨none, none⟩)).2 = [⟨"mc.example.org", 25565, 3000⟩] :=
  hostname_overrides_ip "mc.example.org" "1.2.3.4" (by decide) (by decide)
    ⟨none, none, some ⟨some "1.2.3.4", []⟩⟩ rfl
    (fun _ _ _ => .error ⟨none, none⟩) (fun _ _ _ => .error ⟨none, none⟩)

/-- C8: every game-protocol query the on-demand path issues carries a
5000 ms timeout, and every one the periodic path issues carries a
3000 ms timeout, on every invocation of either path. -/
theorem query_timeouts (hostname : Option String)
    (res : Except JsError ResourceSnapshot) (res2 : Except String ResourceSnapshot)
    (q q2 : QueryFn) :
    ((handlePingServer hostname res q).2.all fun c => c.timeout == 5000) = true ∧
    ((updateBotStatus hostname res2 q2).2.all fun c => c.timeout == 3000) = true := by
  constructor
  · unfold handlePingServer
    split
    · rfl
    · split
      · rfl
      · dsimp only
        split <;> rfl
  · unfold updateBotStatus
    split
    · rfl
    · split
      · rfl
      · dsimp only
        split <;> rfl

end Tetracubed
